import Mathlib

/-!
Shallow embedding of `opi/external_methods` (`process.py`, `server.py`).

The Python code is single-threaded and synchronous; every interaction with
the operating system (polling a child, spawning, binding a probe socket,
the network round trip) is modelled by passing the outcome of that
interaction in as an explicit oracle argument.  Mutation of `self` becomes
explicit state passing; `print` calls become a list of `Report` values;
calls into the OS become a list of event values, so that "no process was
spawned" or "the connection was closed" are statements about the trace.
-/

/-- A `subprocess.Popen` handle.  The only attribute the code reads is
`pid`; liveness (`poll()`) is supplied by an oracle, never cached. -/
structure Popen where
  pid : Nat
  deriving Repr, DecidableEq

/-- Python truthiness for the value returned by `process_is_running`:
`self.process and self.process.poll() is None` evaluates to `None` when
`self.process` is `None`, and to a `bool` otherwise. -/
inductive PyBool where
  | none
  | bool (b : Bool)
  deriving Repr, DecidableEq

/-- Python truthiness of a `PyBool` value (`None` is falsy). -/
def PyBool.isTruthy : PyBool → Bool
  | PyBool.none => false
  | PyBool.bool b => b

/-- State of a `Process` object (`process.py`): the single mutable field
`self.process`. -/
structure ProcessState where
  process : Option Popen
  deriving Repr, DecidableEq

/-- Messages printed by the code (`print(...)` calls), abstracted from
their exact wording. -/
inductive Report where
  | processStarted (pid : Nat)
  | commandNotFound
  | invalidArguments
  | subprocessError
  | osError
  | alreadyRunning
  | stoppingProcess (pid : Nat)
  | portAlreadyInUse (port : Nat)
  | checkPreviousServers
  | serverStarted
  | serverAlreadyRunning
  | idPortSet
  | idPortNotSet
  | serverSetupResponse
  deriving Repr, DecidableEq

/-- Outcome of the `subprocess.Popen(cmd, **pipe_kwargs)` call: either a
fresh handle, or one of the four exception classes the code catches. -/
inductive SpawnResult where
  | ok (h : Popen)
  | fileNotFound
  | valueError
  | subprocessError
  | osError
  deriving Repr, DecidableEq

/-- Events issued to the operating system by `Process`. -/
inductive ProcEvent where
  | popen (cmd : List String) (pipe : Bool)
  | terminate (pid : Nat)
  | wait (pid : Nat) (timeout : Nat)
  | kill (pid : Nat)
  deriving Repr, DecidableEq

/-- `Process.process_is_running`:
`return self.process and self.process.poll() is None`.
`poll h = none` models `poll()` returning `None` (child still running). -/
def Process.process_is_running (p : ProcessState) (poll : Popen → Option Int) : PyBool :=
  match p.process with
  | Option.none => PyBool.none
  | Option.some h => PyBool.bool (poll h).isNone

/-- `Process.start(cmd, pipe)`.  The outer guard is
`if not self.process_is_running():`; on that branch `Popen` is attempted
(event `.popen cmd pipe`) and each of the four caught exception classes is
reported with no assignment to `self.process` (the old value, if any, is
retained).  On the other branch nothing happens beyond the report. -/
def Process.start (p : ProcessState) (poll : Popen → Option Int) (spawn : SpawnResult)
    (cmd : List String) (pipe : Bool) : ProcessState × List ProcEvent × List Report :=
  if ¬ (Process.process_is_running p poll).isTruthy then
    match spawn with
    | SpawnResult.ok h =>
        (⟨Option.some h⟩, [ProcEvent.popen cmd pipe], [Report.processStarted h.pid])
    | SpawnResult.fileNotFound =>
        (p, [ProcEvent.popen cmd pipe], [Report.commandNotFound])
    | SpawnResult.valueError =>
        (p, [ProcEvent.popen cmd pipe], [Report.invalidArguments])
    | SpawnResult.subprocessError =>
        (p, [ProcEvent.popen cmd pipe], [Report.subprocessError])
    | SpawnResult.osError =>
        (p, [ProcEvent.popen cmd pipe], [Report.osError])
  else
    (p, [], [Report.alreadyRunning])

/-- `Process.stop_process()`.  When `process_is_running()` is truthy
(`self.process = some h` with `poll h = none`): `terminate()`, then
`wait(timeout=30)`; if the wait succeeds `self.process = None`, on
`TimeoutExpired` a `kill()`; in every branch the trailing unconditional
`self.process = None` runs.  `exitsWithinTimeout` is the oracle for
whether `wait(timeout=30)` returns before the timeout. -/
def Process.stop_process (p : ProcessState) (poll : Popen → Option Int)
    (exitsWithinTimeout : Bool) : ProcessState × List ProcEvent × List Report :=
  match p.process with
  | Option.none => (⟨Option.none⟩, [], [])
  | Option.some h =>
    if (poll h).isNone then
      (⟨Option.none⟩,
        [ProcEvent.terminate h.pid, ProcEvent.wait h.pid 30] ++
          (if exitsWithinTimeout then [] else [ProcEvent.kill h.pid]),
        [Report.stoppingProcess h.pid])
    else
      (⟨Option.none⟩, [], [])

/-- State of an `OpiServer` object (`server.py`): the owned `Process` and
the `serverpath`, `_host_id`, `_port` fields. -/
structure OpiServerSt where
  process : ProcessState
  serverpath : String
  host_id : String
  port : Nat
  deriving Repr, DecidableEq

/-- `OpiServer.server_port_in_use()`: binds a throwaway socket to
`(self._host_id, self._port)`; the oracle `inUse` gives the outcome of
that probe for each endpoint. -/
def OpiServer.server_port_in_use (s : OpiServerSt) (inUse : String → Nat → Bool) : Bool :=
  inUse s.host_id s.port

/-- `OpiServer.set_id_and_port(host_id, port)`: unconditional assignment
of both fields. -/
def OpiServer.set_id_and_port (s : OpiServerSt) (host_id : String) (port : Nat) : OpiServerSt :=
  { s with host_id := host_id, port := port }

/-- Events issued by `OpiServer.start_server` beyond those of `Process`. -/
inductive SrvEvent where
  | proc (e : ProcEvent)
  | sleep (seconds : Nat)
  deriving Repr, DecidableEq

/-- Outcome of `OpiServer.start_server`: the new state, the OS events, the
reports, and `exit = some code` exactly when `sys.exit(code)` terminated
the calling process. -/
structure SrvOutcome where
  state : OpiServerSt
  events : List SrvEvent
  reports : List Report
  exit : Option Nat
  deriving Repr, DecidableEq

/-- `OpiServer.start_server(exe)`.  If `server_port_in_use()` the two
failure messages are printed and `sys.exit(101)` runs — nothing else
happens.  Otherwise, when `self.process.process_is_running()` is falsy the
command `[exe, serverpath, "-b", host:port]` is built and passed to
`self.process.start` (whose own guard re-checks the same condition), and
the handle is reported; when truthy only a report is made; in both cases
`time.sleep(5)` follows. -/
def OpiServer.start_server (s : OpiServerSt) (inUse : String → Nat → Bool)
    (poll : Popen → Option Int) (spawn : SpawnResult) (exe : String) : SrvOutcome :=
  if OpiServer.server_port_in_use s inUse then
    { state := s, events := [],
      reports := [Report.portAlreadyInUse s.port, Report.checkPreviousServers],
      exit := Option.some 101 }
  else
    if ¬ (Process.process_is_running s.process poll).isTruthy then
      let cmd := [exe, s.serverpath, "-b", s.host_id ++ ":" ++ toString s.port]
      let r := Process.start s.process poll spawn cmd false
      { state := { s with process := r.1 },
        events := r.2.1.map SrvEvent.proc ++ [SrvEvent.sleep 5],
        reports := r.2.2 ++ [Report.serverStarted],
        exit := Option.none }
    else
      { state := s, events := [SrvEvent.sleep 5],
        reports := [Report.serverAlreadyRunning],
        exit := Option.none }

/-- State of a `CalcServer` object (`server.py`): the owned `OpiServer`
and the `_calculator` field (an arbitrary picklable value, kept as a type
parameter). -/
structure CalcServerSt (α : Type) where
  server : OpiServerSt
  calculator : α
  deriving Repr, DecidableEq

/-- `CalcServer.set_id_and_port(host_id, port)`: the change is applied via
`OpiServer.set_id_and_port` only when `server_port_in_use()` — probed at
the *current* endpoint — is false; otherwise the state is untouched. -/
def CalcServer.set_id_and_port {α : Type} (s : CalcServerSt α) (inUse : String → Nat → Bool)
    (host_id : String) (port : Nat) : CalcServerSt α × List Report :=
  if ¬ OpiServer.server_port_in_use s.server inUse then
    ({ s with server := OpiServer.set_id_and_port s.server host_id port },
      [Report.idPortSet])
  else
    (s, [Report.idPortNotSet])

/-- Events on the `multiprocessing.connection.Client` connection used by
`load_calculator`.  `α` is the calculator type, `β` the worker's response
type. -/
inductive ConnEvent (α β : Type) where
  | connect (host : String) (port : Nat) (authkey : String)
  | send (type : String) (calculator : α)
  | recv (response : β)
  | close
  deriving Repr, DecidableEq

/-- Behaviour of the external side of the connection during one
`load_calculator` call: whether `Client(...)` succeeds, whether
`conn.send` succeeds, and what `conn.recv` yields (`none` = it raises). -/
structure ConnWorld (β : Type) where
  connectOk : Bool
  sendOk : Bool
  recvResult : Option β
  deriving Repr, DecidableEq

/-- Exceptions propagating out of `load_calculator`. -/
inductive LoadErr where
  | connectionError
  | sendError
  | recvError
  deriving Repr, DecidableEq

/-- `CalcServer.load_calculator()`.  Opens
`Client((self.server._host_id, self.server._port), authkey=b'secret')`
in a `with` block, sends the dict
`{"type": "setup_calculator", "calculator": self._calculator}`, blocks on
`conn.recv()`, prints the response.  The `with` block closes the
connection on every exit path once it was acquired; if `Client` itself
raises no connection exists.  No field of `self` or `self.server` is
assigned. -/
def CalcServer.load_calculator {α β : Type} (s : CalcServerSt α) (w : ConnWorld β) :
    CalcServerSt α × List (ConnEvent α β) × Except LoadErr Unit :=
  if w.connectOk then
    let cevt : ConnEvent α β := ConnEvent.connect s.server.host_id s.server.port "secret"
    if w.sendOk then
      match w.recvResult with
      | Option.some r =>
          (s, [cevt, ConnEvent.send "setup_calculator" s.calculator,
               ConnEvent.recv r, ConnEvent.close],
            Except.ok ())
      | Option.none =>
          (s, [cevt, ConnEvent.send "setup_calculator" s.calculator, ConnEvent.close],
            Except.error LoadErr.recvError)
    else
      (s, [cevt, ConnEvent.close], Except.error LoadErr.sendError)
  else
    (s, [], Except.error LoadErr.connectionError)

/-- Classification of a `Popen` outcome: every constructor except `ok`
models a caught exception. -/
def SpawnResult.isFailure : SpawnResult → Bool
  | SpawnResult.ok _ => false
  | SpawnResult.fileNotFound => true
  | SpawnResult.valueError => true
  | SpawnResult.subprocessError => true
  | SpawnResult.osError => true

/-- C1: when the target endpoint is already bound (`server_port_in_use`
returns true), `start_server` prints the two failure messages and
terminates the calling process with exit status 101; the state is
untouched and no OS event — in particular no `popen` — is issued. -/
theorem start_server_bound_port_exits_101
    (s : OpiServerSt) (inUse : String → Nat → Bool) (poll : Popen → Option Int)
    (spawn : SpawnResult) (exe : String)
    (h : OpiServer.server_port_in_use s inUse = true) :
    OpiServer.start_server s inUse poll spawn exe =
      { state := s, events := [],
        reports := [Report.portAlreadyInUse s.port, Report.checkPreviousServers],
        exit := Option.some 101 } := by
  simp [OpiServer.start_server, h]

theorem start_server_bound_port_exits_101_witness :
    OpiServer.start_server ⟨⟨Option.none⟩, "srv.py", "127.0.0.1", 9000⟩
        (fun _ _ => true) (fun _ => Option.none) (SpawnResult.ok ⟨7⟩) "python" =
      { state := ⟨⟨Option.none⟩, "srv.py", "127.0.0.1", 9000⟩, events := [],
        reports := [Report.portAlreadyInUse 9000, Report.checkPreviousServers],
        exit := Option.some 101 } :=
  start_server_bound_port_exits_101 _ _ _ _ _ rfl

/-- C2: immediately after `stop_process` returns — on the graceful-exit
path, the forced-kill path and the no-live-child path alike — the stored
handle is `None` and `process_is_running` is falsy (it yields `None`,
whose truth value is false) under every liveness oracle. -/
theorem stop_process_clears_handle
    (p : ProcessState) (poll : Popen → Option Int) (exitsWithinTimeout : Bool) :
    (Process.stop_process p poll exitsWithinTimeout).1.process = Option.none ∧
    ∀ poll' : Popen → Option Int,
      (Process.process_is_running (Process.stop_process p poll exitsWithinTimeout).1
        poll').isTruthy = false := by
  have h1 : (Process.stop_process p poll exitsWithinTimeout).1.process = Option.none := by
    rcases p with ⟨_ | h⟩
    · rfl
    · simp only [Process.stop_process]
      split <;> rfl
  refine ⟨h1, fun poll' => ?_⟩
  simp [Process.process_is_running, h1, PyBool.isTruthy]

/-- C3: while a child is alive, `start` is a no-op that reports
"already running" and leaves state, events and child untouched; hence two
consecutive `start` calls from the empty state (the first spawning `h`,
still alive at the second call) leave exactly the one handle `h`. -/
theorem start_at_most_one_child
    (p : ProcessState) (poll : Popen → Option Int) (spawn : SpawnResult)
    (cmd cmd' : List String) (pipe pipe' : Bool) (h : Popen)
    (hp : p.process = Option.some h) (halive : poll h = Option.none) :
    Process.start p poll spawn cmd pipe = (p, [], [Report.alreadyRunning]) ∧
    (Process.start (⟨Option.none⟩ : ProcessState) poll (SpawnResult.ok h) cmd pipe).1 =
      ⟨Option.some h⟩ ∧
    Process.start
        (Process.start (⟨Option.none⟩ : ProcessState) poll (SpawnResult.ok h) cmd pipe).1
        poll spawn cmd' pipe' =
      (⟨Option.some h⟩, [], [Report.alreadyRunning]) := by
  rcases p with ⟨pr⟩
  simp only at hp
  subst hp
  refine ⟨?_, ?_, ?_⟩ <;>
    simp [Process.start, Process.process_is_running, PyBool.isTruthy, halive]

theorem start_at_most_one_child_witness :
    Process.start ⟨Option.some ⟨5⟩⟩ (fun _ => Option.none) SpawnResult.fileNotFound
        ["python", "srv.py"] false =
      (⟨Option.some ⟨5⟩⟩, [], [Report.alreadyRunning]) :=
  (start_at_most_one_child ⟨Option.some ⟨5⟩⟩ (fun _ => Option.none) SpawnResult.fileNotFound
    ["python", "srv.py"] ["python", "srv.py"] false false ⟨5⟩ rfl rfl).1

/-- C4 counterexample: with a stale handle to an exited child (pid 42,
`poll` reports exit code 0) stored, a failing `start` (executable missing)
leaves that handle in place — the stored handle is not cleared. -/
theorem start_failure_keeps_stale_handle
    : (Process.start ⟨Option.some ⟨42⟩⟩ (fun _ => Option.some 0) SpawnResult.fileNotFound
        ["missing_exe"] false).1.process ≠ Option.none := by
  simp [Process.start, Process.process_is_running, PyBool.isTruthy]

/-- C4 amended: every launch failure is caught (the embedding is total on
these outcomes, mirroring the except clauses) and reported with exactly
one classification report that is not the already-running notice; the
stored handle is left unchanged by the failed call — in particular no
handle to a new child is retained, and if no handle was stored before the
call none is stored after. -/
theorem start_failure_leaves_handle_unchanged
    (p : ProcessState) (poll : Popen → Option Int) (spawn : SpawnResult)
    (cmd : List String) (pipe : Bool)
    (hnotrun : (Process.process_is_running p poll).isTruthy = false)
    (hfail : SpawnResult.isFailure spawn = true) :
    (Process.start p poll spawn cmd pipe).1 = p ∧
    (Process.start p poll spawn cmd pipe).2.2.length = 1 ∧
    Report.alreadyRunning ∉ (Process.start p poll spawn cmd pipe).2.2 ∧
    (p.process = Option.none → (Process.start p poll spawn cmd pipe).1.process = Option.none) := by
  cases spawn <;> simp_all [Process.start, SpawnResult.isFailure]

theorem start_failure_leaves_handle_unchanged_witness :
    (Process.start ⟨Option.some ⟨42⟩⟩ (fun _ => Option.some 0) SpawnResult.fileNotFound
        ["missing_exe"] false).1 = ⟨Option.some ⟨42⟩⟩ :=
  (start_failure_leaves_handle_unchanged ⟨Option.some ⟨42⟩⟩ (fun _ => Option.some 0)
    SpawnResult.fileNotFound ["missing_exe"] false rfl rfl).1

/-- C5: `CalcServer.set_id_and_port` stores the new host and port exactly
when the probe of the *current* endpoint reports it unbound, and otherwise
rejects the change with a report, leaving the state untouched; and the
outcome depends only on the probe's answer at the current endpoint, so the
new endpoint's availability is never consulted. -/
theorem set_id_and_port_guarded_by_current_endpoint
    {α : Type} (s : CalcServerSt α) (inUse inUseB : String → Nat → Bool)
    (host_id : String) (port : Nat) :
    (CalcServer.set_id_and_port s inUse host_id port =
      if inUse s.server.host_id s.server.port then (s, [Report.idPortNotSet])
      else ({ s with server := { s.server with host_id := host_id, port := port } },
        [Report.idPortSet])) ∧
    (inUse s.server.host_id s.server.port = inUseB s.server.host_id s.server.port →
      CalcServer.set_id_and_port s inUse host_id port =
        CalcServer.set_id_and_port s inUseB host_id port) := by
  constructor
  · by_cases hcur : inUse s.server.host_id s.server.port <;>
      simp [CalcServer.set_id_and_port, OpiServer.server_port_in_use,
        OpiServer.set_id_and_port, hcur]
  · intro hagree
    simp [CalcServer.set_id_and_port, OpiServer.server_port_in_use, hagree]

theorem set_id_and_port_guarded_witness :
    CalcServer.set_id_and_port
        (⟨⟨⟨Option.none⟩, "srv.py", "127.0.0.1", 9000⟩, (3 : Nat)⟩ : CalcServerSt Nat)
        (fun _ _ => false) "10.0.0.1" 8000 =
      (⟨⟨⟨Option.none⟩, "srv.py", "10.0.0.1", 8000⟩, (3 : Nat)⟩, [Report.idPortSet]) := by
  have h := (set_id_and_port_guarded_by_current_endpoint
    (⟨⟨⟨Option.none⟩, "srv.py", "127.0.0.1", 9000⟩, (3 : Nat)⟩ : CalcServerSt Nat)
    (fun _ _ => false) (fun _ _ => false) "10.0.0.1" 8000).1
  simpa using h

/-- C6: with a live child, `stop_process` first issues the graceful
`terminate`, then the bounded `wait` with timeout 30, and issues a forced
`kill` exactly when the child did not exit within that timeout; the only
report is the informational "stopping" message, so the escalation is
never surfaced to the caller as a failure. -/
theorem stop_process_graceful_then_forced
    (p : ProcessState) (poll : Popen → Option Int) (exitsWithinTimeout : Bool) (h : Popen)
    (hp : p.process = Option.some h) (halive : poll h = Option.none) :
    (Process.stop_process p poll exitsWithinTimeout).2.1 =
      [ProcEvent.terminate h.pid, ProcEvent.wait h.pid 30] ++
        (if exitsWithinTimeout then [] else [ProcEvent.kill h.pid]) ∧
    (Process.stop_process p poll exitsWithinTimeout).2.2 =
      [Report.stoppingProcess h.pid] := by
  rcases p with ⟨pr⟩
  simp only at hp
  subst hp
  constructor <;> simp [Process.stop_process, halive]

theorem stop_process_graceful_then_forced_witness :
    (Process.stop_process ⟨Option.some ⟨9⟩⟩ (fun _ => Option.none) false).2.1 =
      [ProcEvent.terminate 9, ProcEvent.wait 9 30, ProcEvent.kill 9] := by
  have h := (stop_process_graceful_then_forced ⟨Option.some ⟨9⟩⟩ (fun _ => Option.none)
    false ⟨9⟩ rfl rfl).1
  simpa using h

/-- C7: every payload ever sent by `load_calculator` is exactly the tagged
object with tag "setup_calculator" and the stored calculator; the call
returns normally only after a complete response was received on the
connection; and whenever the connection was acquired, the last event on it
is `close` — on the success path and on both failure paths. -/
theorem load_calculator_envelope_and_close
    {α β : Type} (s : CalcServerSt α) (w : ConnWorld β) :
    (∀ t : String, ∀ c : α,
      ConnEvent.send t c ∈ (CalcServer.load_calculator s w).2.1 →
        t = "setup_calculator" ∧ c = s.calculator) ∧
    ((CalcServer.load_calculator s w).2.2 = Except.ok () →
      ∃ r : β, w.recvResult = Option.some r ∧
        ConnEvent.recv r ∈ (CalcServer.load_calculator s w).2.1) ∧
    (w.connectOk = true →
      (CalcServer.load_calculator s w).2.1.getLast? =
        Option.some (ConnEvent.close : ConnEvent α β)) ∧
    (w.connectOk = true → w.sendOk = true →
      ConnEvent.send "setup_calculator" s.calculator ∈
        (CalcServer.load_calculator s w).2.1) := by
  rcases w with ⟨co, so, rr⟩
  cases co <;> cases so <;> rcases rr with _ | r <;>
    simp [CalcServer.load_calculator, List.getLast?]

theorem load_calculator_envelope_and_close_witness :
    (CalcServer.load_calculator
        (⟨⟨⟨Option.none⟩, "srv.py", "127.0.0.1", 9000⟩, (3 : Nat)⟩ : CalcServerSt Nat)
        (⟨true, true, Option.some 0⟩ : ConnWorld Int)).2.1.getLast? =
      Option.some (ConnEvent.close : ConnEvent Nat Int) :=
  (load_calculator_envelope_and_close
    (⟨⟨⟨Option.none⟩, "srv.py", "127.0.0.1", 9000⟩, (3 : Nat)⟩ : CalcServerSt Nat)
    (⟨true, true, Option.some 0⟩ : ConnWorld Int)).2.2.1 rfl

/-- C8: when no process handle is stored, `process_is_running` returns
Python `None` — a falsy value that is not the boolean `False` (nor any
bool), so the declared `bool` return type does not hold on that branch. -/
theorem process_is_running_none_is_not_bool
    (p : ProcessState) (poll : Popen → Option Int) (hp : p.process = Option.none) :
    Process.process_is_running p poll = PyBool.none ∧
    (∀ b : Bool, Process.process_is_running p poll ≠ PyBool.bool b) ∧
    (Process.process_is_running p poll).isTruthy = false := by
  refine ⟨?_, ?_, ?_⟩ <;> simp [Process.process_is_running, hp, PyBool.isTruthy]

theorem process_is_running_none_is_not_bool_witness :
    Process.process_is_running ⟨Option.none⟩ (fun _ => Option.none) = PyBool.none ∧
    Process.process_is_running ⟨Option.none⟩ (fun _ => Option.none) ≠ PyBool.bool false :=
  ⟨(process_is_running_none_is_not_bool ⟨Option.none⟩ (fun _ => Option.none) rfl).1,
    (process_is_running_none_is_not_bool ⟨Option.none⟩ (fun _ => Option.none) rfl).2.1 false⟩

/-- C9: every connection `load_calculator` opens is authenticated with the
fixed pre-shared key "secret" (`authkey=b'secret'` in the source),
whatever the state and connection behaviour — the key is a literal in the
call, not a parameter the caller could configure. -/
theorem load_calculator_fixed_authkey
    {α β : Type} (s : CalcServerSt α) (w : ConnWorld β)
    (host : String) (port : Nat) (key : String)
    (hmem : (ConnEvent.connect host port key : ConnEvent α β) ∈
      (CalcServer.load_calculator s w).2.1) :
    key = "secret" := by
  rcases w with ⟨co, so, rr⟩
  cases co <;> cases so <;> rcases rr with _ | r <;>
    simp [CalcServer.load_calculator] at hmem <;> simp [hmem.2.2]

theorem load_calculator_fixed_authkey_witness : ("secret" : String) = "secret" :=
  load_calculator_fixed_authkey
    (⟨⟨⟨Option.none⟩, "srv.py", "127.0.0.1", 9000⟩, (3 : Nat)⟩ : CalcServerSt Nat)
    (⟨true, true, Option.some 0⟩ : ConnWorld Int) "127.0.0.1" 9000 "secret"
    (by simp [CalcServer.load_calculator])

/-- C10: `load_calculator` is state-frame-preserving: after any call —
success or failure — the whole `CalcServer` state, and with it the stored
host, port, server path, process handle and calculator, equals its value
before the call. -/
theorem load_calculator_frame
    {α β : Type} (s : CalcServerSt α) (w : ConnWorld β) :
    (CalcServer.load_calculator s w).1 = s ∧
    (CalcServer.load_calculator s w).1.server.host_id = s.server.host_id ∧
    (CalcServer.load_calculator s w).1.server.port = s.server.port ∧
    (CalcServer.load_calculator s w).1.server.serverpath = s.server.serverpath ∧
    (CalcServer.load_calculator s w).1.server.process = s.server.process ∧
    (CalcServer.load_calculator s w).1.calculator = s.calculator := by
  have hs : (CalcServer.load_calculator s w).1 = s := by
    rcases w with ⟨co, so, rr⟩
    cases co <;> cases so <;> rcases rr with _ | r <;> simp [CalcServer.load_calculator]
  exact ⟨hs, by rw [hs], by rw [hs], by rw [hs], by rw [hs], by rw [hs]⟩
